import Mathlib

/-!
Shallow embedding of `pinpayments/models.py` from django-pinpayments.

The gateway client (`PinEnvironment.pin_post` / `pin_put` in
`pinpayments/objects.py`, which is outside the source tree) is treated as an
oracle: each embedded operation takes the pair the client would return — the
raw response text and the parsed JSON body, `none` standing for the client
"no parsable JSON" sentinel described in the spec (§4.2).  Database writes
are explicit: an operation returns the list of persistence/network events it
performed together with an `Except` value, where `.error` models a raised
Python exception (so nothing was returned to the caller) and `.ok` the normal
return value.
-/

/-- Parsed JSON values, as produced by `response.json()`. -/
inductive JValue where
  | null : JValue
  | str (s : String) : JValue
  | int (n : Int) : JValue
  | arr (xs : List JValue) : JValue
  | obj (fields : List (String × JValue)) : JValue

/-- Python exceptions that the embedded code can raise. -/
inductive PyErr where
  | keyError (k : String) : PyErr
  | indexError : PyErr
  | typeError : PyErr
  | attributeError : PyErr
  | pinError (msg : String) : PyErr
deriving DecidableEq

namespace JValue

/-- `k in d.keys()`: membership test on a dict's keys; calling `.keys()` on a
non-dict raises `AttributeError`. -/
def keysHas (v : JValue) (k : String) : Except PyErr Bool :=
  match v with
  | .obj fields => .ok (fields.any (fun p => p.1 == k))
  | _ => .error .attributeError

/-- Pure lookup of a key in a JSON object, used to state hypotheses. -/
def objGet? (v : JValue) (k : String) : Option JValue :=
  match v with
  | .obj fields => (fields.find? (fun p => p.1 == k)).map (fun p => p.2)
  | _ => none

/-- `d[k]`: subscription, raising `KeyError` when the key is absent and
`TypeError` when the value is not a dict. -/
def getKey (v : JValue) (k : String) : Except PyErr JValue :=
  match v with
  | .obj _ =>
    match v.objGet? k with
    | some w => .ok w
    | none => .error (.keyError k)
  | _ => .error .typeError

/-- `xs[i]` on a JSON array, raising `IndexError` past the end.  (The
source only ever indexes the gateway's `messages` array, which the wire
contract makes a JSON array, so the non-array branch is collapsed to
`TypeError`.) -/
def getIdx (v : JValue) (i : Nat) : Except PyErr JValue :=
  match v with
  | .arr xs =>
    match xs[i]? with
    | some w => .ok w
    | none => .error .indexError
  | _ => .error .typeError

/-- `d.get(k, None)`: total lookup defaulting to `None`. -/
def dictGet (v : JValue) (k : String) : JValue :=
  match v.objGet? k with
  | some w => w
  | none => .null

/-- View a stored JSON value as Python does when it lands in a nullable model
field: JSON `null` is Python `None`. -/
def toPyOpt : JValue → Option JValue
  | .null => none
  | v => some v

/-- `str(v)`, as used by `"...".format(v)`.  The gateway's error messages are
JSON strings, so only the scalar cases are ever exercised; the container
cases use a compact stand-in rendering. -/
def pyStr : JValue → String
  | .null => "None"
  | .str s => s
  | .int n => toString n
  | .arr _ => "[...]"
  | .obj _ => "{...}"

/-- View a JSON value as a Python `int` operand: `v / Decimal("100.00")`
raises `TypeError` unless `v` is a number. -/
def asInt : JValue → Except PyErr Int
  | .int n => .ok n
  | _ => .error .typeError

end JValue

/-- `int(q)` on a `Decimal`: truncation toward zero, i.e. the truncating
division of the (reduced) numerator by the denominator. -/
def pyInt (q : ℚ) : ℤ :=
  q.num.tdiv q.den

/-- Python truthiness of a nullable string field (`CharField` with
`null=True`): falsy when `None` or empty. -/
def strTruthy : Option String → Bool
  | none => false
  | some s => s ≠ ""

/-- The slice of Django settings the models read:
`PIN_ENVIRONMENTS` (we keep its key set) and `PIN_DEFAULT_ENVIRONMENT`
(`none` models the attribute being absent, in which case `getattr`
falls back to `"test"`). -/
structure PinSettings where
  pin_environments : List String
  pin_default_environment : Option String

/-- The `PinTransaction` model row.  `date` is an abstract timestamp
(`none` = unset), `customer_token` holds the token string of the FK-ed
`CustomerToken` (`none` = no customer), and the response-derived fields hold
raw JSON values exactly as the source assigns them (`Option` for nullable
columns, `none` = Python `None`). -/
structure PinTransaction where
  date : Option Nat
  environment : String
  amount : ℚ
  fees : Option ℚ
  description : Option String
  processed : Bool
  succeeded : Bool
  currency : String
  transaction_token : Option JValue
  card_token : Option String
  customer_token : Option String
  pin_response : Option JValue
  ip_address : String
  email_address : String
  card_address1 : Option JValue
  card_address2 : Option JValue
  card_city : Option JValue
  card_state : Option JValue
  card_postcode : Option JValue
  card_country : Option JValue
  card_number : Option JValue
  card_type : Option JValue
  pin_response_text : Option String

/-- The environment name `PinTransaction.save` stores and checks against
`PIN_ENVIRONMENTS` (models.py lines 369-372): the stored name, or
`getattr(settings, 'PIN_DEFAULT_ENVIRONMENT', 'test')` when the stored name
is blank (Python falsy). -/
def effectiveEnvironment (s : PinSettings) (t : PinTransaction) : String :=
  if t.environment = "" then s.pin_default_environment.getD "test" else t.environment

namespace PinTransaction

/-- `PinTransaction.save` (models.py lines 362-381).  `now` abstracts
`datetime.now()` (lines 375-379 only stamp `date` when it is unset, hence
`some (t.date.getD now)`).  `.ok t` means the row was written with state
`t`; `.error` models a raised `PinError`, with no row written. -/
def save (s : PinSettings) (now : Nat) (t : PinTransaction) :
    Except PyErr PinTransaction :=
  if ¬ (strTruthy t.card_token ∨ t.customer_token.isSome) then
    .error (.pinError "Must provide card_token or customer_token")
  else if strTruthy t.card_token ∧ t.customer_token.isSome then
    .error (.pinError "Can only provide card_token OR customer_token, not both")
  else if effectiveEnvironment s t ∉ s.pin_environments then
    .error (.pinError ("Pin Environment " ++ effectiveEnvironment s t ++ " does not exist"))
  else
    .ok { t with environment := effectiveEnvironment s t
                 date := some (t.date.getD now) }

end PinTransaction

/-- The outbound payload of `process_transaction` (models.py lines 399-409):
exactly one of `card_token` / `customer_token` ends up present. -/
structure ChargePayload where
  email : String
  description : Option String
  amount : ℤ
  currency : String
  ip_address : String
  card_token : Option String
  customer_token : Option String

/-- Observable persistence/network actions of `process_transaction`:
a database write of a row state, or an HTTP POST. -/
inductive Event where
  | save (row : PinTransaction) : Event
  | post (url : String) (payload : ChargePayload) : Event

def Event.isPost : Event → Bool
  | .post _ _ => true
  | _ => false

namespace PinTransaction

/-- Payload construction (models.py lines 399-409).  `int(self.amount * 100)`
truncates the decimal-dollar amount towards zero; when `card_token` is falsy
the source dereferences `self.customer_token.token`, which raises
`AttributeError` when the foreign key is `None`. -/
def buildPayload (t : PinTransaction) : Except PyErr ChargePayload :=
  let base : ChargePayload :=
    { email := t.email_address
      description := t.description
      amount := pyInt (t.amount * 100)
      currency := t.currency
      ip_address := t.ip_address
      card_token := none
      customer_token := none }
  if strTruthy t.card_token then
    .ok { base with card_token := t.card_token }
  else
    match t.customer_token with
    | some c => .ok { base with customer_token := some c }
    | none => .error .attributeError

/-- Response interpretation (models.py lines 414-441), acting on the record
after `pin_response_text` was stored.  `response_json = none` is the gateway
client sentinel for unparsable JSON. -/
def interpretResponse (t : PinTransaction) (response_json : Option JValue) :
    Except PyErr PinTransaction :=
  match response_json with
  | none => .ok { t with pin_response := some (.str "Failure.") }
  | some rj => do
    if (← rj.keysHas "error") then
      let t1 ←
        if (← rj.keysHas "messages") then do
          let msgs ← rj.getKey "messages"
          let m0 ← msgs.getIdx 0
          if (← m0.keysHas "message") then do
            let m ← m0.getKey "message"
            pure { t with pin_response := some (.str ("Failure: " ++ m.pyStr)) }
          else
            pure t
        else do
          let d ← rj.getKey "error_description"
          pure { t with pin_response := some (.str ("Failure: " ++ d.pyStr)) }
      pure { t1 with transaction_token := (rj.dictGet "charge_token").toPyOpt }
    else do
      let data ← rj.getKey "response"
      let tok ← data.getKey "token"
      let total_fees ← (← data.getKey "total_fees").asInt
      let status_message ← data.getKey "status_message"
      let a1 ← (← data.getKey "card").getKey "address_line1"
      let a2 ← (← data.getKey "card").getKey "address_line2"
      let city ← (← data.getKey "card").getKey "address_city"
      let state ← (← data.getKey "card").getKey "address_state"
      let postcode ← (← data.getKey "card").getKey "address_postcode"
      let country ← (← data.getKey "card").getKey "address_country"
      let display_number ← (← data.getKey "card").getKey "display_number"
      let scheme ← (← data.getKey "card").getKey "scheme"
      pure { t with
        succeeded := true
        transaction_token := tok.toPyOpt
        fees := some ((total_fees : ℚ) / 100)
        pin_response := status_message.toPyOpt
        card_address1 := a1.toPyOpt
        card_address2 := a2.toPyOpt
        card_city := city.toPyOpt
        card_state := state.toPyOpt
        card_postcode := postcode.toPyOpt
        card_country := country.toPyOpt
        card_number := display_number.toPyOpt
        card_type := scheme.toPyOpt }

/-- `PinTransaction.process_transaction` (models.py lines 391-443).
`gateway` is the `(response.text, response_json)` pair `pin_post` would
return.  The first component collects the persistence/network events in
order; the second is the Python outcome: `.ok (final_row, return_value)` or
`.error` for a raised exception. -/
def process_transaction (s : PinSettings) (now : Nat)
    (gateway : String × Option JValue) (t : PinTransaction) :
    List Event × Except PyErr (PinTransaction × Option JValue) :=
  if t.processed then
    ([], .ok (t, none))
  else
    match PinTransaction.save s now { t with processed := true } with
    | .error e => ([], .error e)
    | .ok t1 =>
      match t1.buildPayload with
      | .error e => ([Event.save t1], .error e)
      | .ok payload =>
        let events := [Event.save t1, Event.post "/charges" payload]
        let t2 := { t1 with pin_response_text := some gateway.1 }
        match t2.interpretResponse gateway.2 with
        | .error e => (events, .error e)
        | .ok t3 =>
          match PinTransaction.save s now t3 with
          | .error e => (events, .error e)
          | .ok t4 => (events ++ [Event.save t4], .ok (t4, t4.pin_response))

end PinTransaction

/-- The `PinRecipient` row, reduced to the field `send_new` reads. -/
structure PinRecipient where
  token : String

/-- Outbound payload of `PinTransfer.send_new` (models.py lines 586-591):
the caller's integer minor-unit amount is placed in it unchanged. -/
structure TransferPayload where
  amount : ℤ
  description : String
  recipient : String
  currency : String

/-- The `PinTransfer` row as `send_new` creates it: the five
response-derived columns hold the raw JSON values. -/
structure PinTransfer where
  transfer_token : JValue
  status : JValue
  currency : JValue
  description : JValue
  amount : JValue
  recipient : String
  pin_response_text : String

/-- Observable actions of `send_new`: the HTTP POST and row creations. -/
inductive TransferEvent where
  | post (url : String) (payload : TransferPayload) : TransferEvent
  | create (row : PinTransfer) : TransferEvent

def TransferEvent.isCreate : TransferEvent → Bool
  | .create _ => true
  | _ => false

namespace PinTransfer

/-- `PinTransfer.send_new` (models.py lines 582-603).  `gateway` is the
`(response.text, response_json)` pair `pin_post` would return.
`data = response_json['response']` raises `TypeError` when no JSON was
parsed and `KeyError` on a gateway error body (which has no `response`
key); only after all five field lookups succeed is the row created. -/
def send_new (amount : ℤ) (description : String) (recipient : PinRecipient)
    (currency : String) (gateway : String × Option JValue) :
    List TransferEvent × Except PyErr PinTransfer :=
  let payload : TransferPayload :=
    { amount := amount
      description := description
      recipient := recipient.token
      currency := currency }
  let events := [TransferEvent.post "/transfers" payload]
  let dataE : Except PyErr JValue :=
    match gateway.2 with
    | none => .error .typeError
    | some rj => rj.getKey "response"
  match dataE with
  | .error e => (events, .error e)
  | .ok data =>
    let rowE : Except PyErr PinTransfer := do
      let tok ← data.getKey "token"
      let status ← data.getKey "status"
      let cur ← data.getKey "currency"
      let desc ← data.getKey "description"
      let amt ← data.getKey "amount"
      pure { transfer_token := tok
             status := status
             currency := cur
             description := desc
             amount := amt
             recipient := recipient.token
             pin_response_text := gateway.1 }
    match rowE with
    | .error e => (events, .error e)
    | .ok row => (events ++ [TransferEvent.create row], .ok row)

end PinTransfer

/-- The `CustomerTokenAbstract` row, reduced to stored columns. -/
structure CustomerTokenRec where
  environment : String
  token : String
  active : Bool

/-- One `CardToken` row owned by a customer.  `created` is the
`auto_now_add` timestamp (the model Meta orders card querysets by it);
`primary` is a `NullBooleanField`. -/
structure CardTokenRec where
  created : Nat
  token : String
  scheme : Option String
  name : Option String
  display_number : Option String
  primary : Option Bool

/-- `"template".format(args...)` looking up one positional replacement
field: index past the supplied arguments raises `IndexError`. -/
def pyFormatPositional (args : List String) (idx : Nat) : Except PyErr String :=
  match args[idx]? with
  | some s => .ok s
  | none => .error .indexError

/-- Observable actions of `update_card`: the HTTP PUT and row writes. -/
inductive CustomerEvent where
  | put (url_tail : String) (card_token : String) : CustomerEvent
  | save (row : CustomerTokenRec) : CustomerEvent

namespace CustomerTokenRec

/-- `CustomerTokenAbstract.update_card` (models.py lines 217-226).
`url_tail = "/customers/{1}".format(self.token)` supplies one positional
argument but the template's replacement field asks for index 1, so the
format call raises `IndexError` before anything else happens.  The dead
continuation is still embedded: the PUT, the
`pin_put(...)[1]['response']` extraction, and then the assignment
`self.card_number = ...`, whose target is a read-only property of
`CustomerTokenAbstract` (a getter with no setter) and therefore raises
`AttributeError`. -/
def update_card (c : CustomerTokenRec) (card_token : String)
    (gateway : String × Option JValue) :
    List CustomerEvent × Except PyErr CustomerTokenRec :=
  match pyFormatPositional [c.token] 1 with
  | .error e => ([], .error e)
  | .ok frag =>
    let url_tail := "/customers/" ++ frag
    let events := [CustomerEvent.put url_tail card_token]
    let dataE : Except PyErr JValue :=
      match gateway.2 with
      | none => .error .typeError
      | some rj => rj.getKey "response"
    match dataE with
    | .error e => (events, .error e)
    | .ok data =>
      match (data.getKey "card").bind (fun card => card.getKey "display_number") with
      | .error e => (events, .error e)
      | .ok _ => (events, .error .attributeError)

end CustomerTokenRec

/-- The relation Django's default `CardToken` queryset ordering
(`Meta.ordering = ['created']`) sorts by. -/
def byCreated (a b : CardTokenRec) : Prop :=
  a.created ≤ b.created

instance : DecidableRel byCreated :=
  fun a b => inferInstanceAs (Decidable (a.created ≤ b.created))

instance : IsTotal CardTokenRec byCreated :=
  ⟨fun a b => Nat.le_total a.created b.created⟩

instance : IsTrans CardTokenRec byCreated :=
  ⟨fun _ _ _ => Nat.le_trans⟩

/-- The default ordering Django applies to `CardToken` querysets:
ascending `created`. -/
def orderByCreated (cards : List CardTokenRec) : List CardTokenRec :=
  List.insertionSort byCreated cards

/-- `CustomerTokenAbstract.primary_card` (models.py lines 167-177), over the
customer's owned card rows.  `self.cards.get(primary=True)` returns the
unique match, raises `DoesNotExist` on zero matches (caught, yielding
`None`) and `MultipleObjectsReturned` on several (caught: a warning is
logged and `self.cards.filter(primary=True)[:1][0]` — the first match in
the queryset's `created` ordering — is returned). -/
def primary_card (cards : List CardTokenRec) : Option CardTokenRec :=
  match (orderByCreated cards).filter (fun c => c.primary == some true) with
  | [] => none
  | [c] => some c
  | c :: _ :: _ => some c

/-- A one-environment settings fixture. -/
def s0 : PinSettings :=
  { pin_environments := ["test"], pin_default_environment := none }

/-- An unprocessed card-token transaction fixture. -/
def t0 : PinTransaction :=
  { date := none
    environment := ""
    amount := 19.99
    fees := none
    description := some "Test charge"
    processed := false
    succeeded := false
    currency := "AUD"
    transaction_token := none
    card_token := some "card_123"
    customer_token := none
    pin_response := none
    ip_address := "127.0.0.1"
    email_address := "user@example.com"
    card_address1 := none
    card_address2 := none
    card_city := none
    card_state := none
    card_postcode := none
    card_country := none
    card_number := none
    card_type := none
    pin_response_text := none }

/-- The payload `process_transaction` builds for `t0` (its `amount` is the
code's own truncation expression; `pyInt ((19.99 : ℚ) * 100) = 1999`). -/
def pl0 : ChargePayload :=
  { email := "user@example.com"
    description := some "Test charge"
    amount := pyInt ((19.99 : ℚ) * 100)
    currency := "AUD"
    ip_address := "127.0.0.1"
    card_token := some "card_123"
    customer_token := none }

/-- The row state the first `save` inside `process_transaction` writes for
`t0` under `s0` at time 0. -/
def t1c : PinTransaction :=
  { t0 with processed := true, environment := "test", date := some 0 }

/-- A gateway error body with no `messages` key. -/
def rjErrBasic : JValue :=
  .obj [("error", .str "x"), ("error_description", .str "bad card")]

/-- A gateway error body whose `messages` array is present but whose first
element has no `message` key. -/
def rjErrNoMsg : JValue :=
  .obj [("error", .str "x"), ("error_description", .str "bad card"),
        ("messages", .arr [.obj []])]

/-- A gateway error body carrying a nested message. -/
def rjErrMsg : JValue :=
  .obj [("error", .str "x"), ("error_description", .str "bad card"),
        ("messages", .arr [.obj [("message", .str "Card was declined")]]),
        ("charge_token", .str "ch_9")]

/-- A gateway success body for a charge. -/
def rjSuccess : JValue :=
  .obj [("response", .obj
    [("token", .str "ch_1"),
     ("total_fees", .int 250),
     ("status_message", .str "Success!"),
     ("card", .obj
       [("address_line1", .str "1 Example St"),
        ("address_line2", .null),
        ("address_city", .str "Melbourne"),
        ("address_state", .str "VIC"),
        ("address_postcode", .str "3000"),
        ("address_country", .str "Australia"),
        ("display_number", .str "XXXX-XXXX-XXXX-0000"),
        ("scheme", .str "visa")])])]

/-- A gateway success body for a transfer. -/
def rjTransfer : JValue :=
  .obj [("response", .obj
    [("token", .str "tfer_1"),
     ("status", .str "pending"),
     ("currency", .str "AUD"),
     ("description", .str "payout"),
     ("amount", .int 400)])]

/-- A recipient fixture. -/
def recip0 : PinRecipient :=
  { token := "rp_1" }

/-- A card fixture: primary, created last. -/
def cardA : CardTokenRec :=
  { created := 5, token := "card_a", scheme := some "visa", name := none,
    display_number := none, primary := some true }

/-- A card fixture: primary, created first. -/
def cardB : CardTokenRec :=
  { created := 3, token := "card_b", scheme := some "master", name := none,
    display_number := none, primary := some true }

/-- A card fixture: not primary. -/
def cardN : CardTokenRec :=
  { created := 4, token := "card_n", scheme := none, name := none,
    display_number := none, primary := some false }

/-! ## Helper lemmas -/

theorem JValue.getKey_of_objGet? {v w : JValue} {k : String}
    (h : v.objGet? k = some w) : v.getKey k = .ok w := by
  cases v with
  | obj fields => simp [JValue.getKey, h]
  | null => simp [JValue.objGet?] at h
  | str s => simp [JValue.objGet?] at h
  | int n => simp [JValue.objGet?] at h
  | arr xs => simp [JValue.objGet?] at h

theorem JValue.getKey_error_of_objGet? {v : JValue} {k : String}
    (h : v.objGet? k = none) : ∃ e, v.getKey k = .error e := by
  cases v with
  | obj fields => exact ⟨.keyError k, by simp [JValue.getKey, h]⟩
  | null => exact ⟨.typeError, rfl⟩
  | str s => exact ⟨.typeError, rfl⟩
  | int n => exact ⟨.typeError, rfl⟩
  | arr xs => exact ⟨.typeError, rfl⟩

theorem PinTransaction.save_ok_iff (s : PinSettings) (now : Nat)
    (t v : PinTransaction) :
    PinTransaction.save s now t = .ok v ↔
      ((strTruthy t.card_token = true ∨ t.customer_token.isSome = true) ∧
       ¬ (strTruthy t.card_token = true ∧ t.customer_token.isSome = true) ∧
       effectiveEnvironment s t ∈ s.pin_environments ∧
       v = { t with environment := effectiveEnvironment s t
                    date := some (t.date.getD now) }) := by
  unfold PinTransaction.save
  split_ifs with h1 h2 h3 <;> simp_all
  exact eq_comm

/-- C1: when `processed` is already true, `process_transaction` performs no
save and no network call, returns `None`, and leaves the record unchanged. -/
theorem processed_transaction_is_noop (s : PinSettings) (now : Nat)
    (gateway : String × Option JValue) (t : PinTransaction)
    (h : t.processed = true) :
    t.process_transaction s now gateway = ([], .ok (t, none)) := by
  unfold PinTransaction.process_transaction
  simp [h]

theorem processed_transaction_is_noop_witness :
    ({ t0 with processed := true } : PinTransaction).process_transaction
        s0 0 ("", none) =
      ([], .ok ({ t0 with processed := true }, none)) :=
  processed_transaction_is_noop s0 0 ("", none) { t0 with processed := true } rfl

/-- C2: `PinTransaction.save` raises a `PinError` — and writes no row —
whenever neither or both of `card_token`/`customer_token` are supplied, or
the (possibly defaulted) environment name is not among the configured
environments; otherwise it writes the row. -/
theorem save_validates_tokens_and_environment (s : PinSettings) (now : Nat)
    (t : PinTransaction) :
    ((¬ (strTruthy t.card_token = true ∨ t.customer_token.isSome = true) ∨
      (strTruthy t.card_token = true ∧ t.customer_token.isSome = true) ∨
      effectiveEnvironment s t ∉ s.pin_environments) →
      ∃ m, t.save s now = .error (.pinError m)) ∧
    ((strTruthy t.card_token = true ∨ t.customer_token.isSome = true) →
     ¬ (strTruthy t.card_token = true ∧ t.customer_token.isSome = true) →
     effectiveEnvironment s t ∈ s.pin_environments →
     t.save s now = .ok { t with environment := effectiveEnvironment s t
                                 date := some (t.date.getD now) }) := by
  constructor
  · intro h
    unfold PinTransaction.save
    split_ifs with h1 h2 h3 <;> simp_all
  · intro h1 h2 h3
    exact (PinTransaction.save_ok_iff s now t _).mpr ⟨h1, h2, h3, rfl⟩

theorem save_validates_tokens_and_environment_witness :
    (∃ m, PinTransaction.save s0 0 { t0 with card_token := none } =
      .error (.pinError m)) ∧
    PinTransaction.save s0 0 t0 =
      .ok { t0 with environment := effectiveEnvironment s0 t0
                    date := some (t0.date.getD 0) } :=
  ⟨(save_validates_tokens_and_environment s0 0 _).1 (by left; decide),
   (save_validates_tokens_and_environment s0 0 t0).2 (by left; decide)
     (by decide) (by decide)⟩

/-- C9 (the code, evaluated): `update_card` raises `IndexError` on every
input — `"/customers/{1}".format(self.token)` asks for positional argument
1 while only one argument (index 0) is supplied — so no PUT is ever
issued and no field is ever copied back. -/
theorem update_card_always_index_error (c : CustomerTokenRec)
    (card_token : String) (gateway : String × Option JValue) :
    c.update_card card_token gateway = ([], .error .indexError) := rfl

/-- C10: `primary_card` is total: it returns `none` exactly when no owned
card has `primary=True`; any returned card is an owned card with
`primary=True` of minimal `created` (covering the several-primaries case);
and when the primary card is unique it is the one returned. -/
theorem primary_card_total_spec (cards : List CardTokenRec) :
    (primary_card cards = none ↔ ∀ c ∈ cards, ¬ c.primary = some true) ∧
    (∀ c, primary_card cards = some c →
      c ∈ cards ∧ c.primary = some true ∧
      ∀ d ∈ cards, d.primary = some true → c.created ≤ d.created) ∧
    (∀ c ∈ cards, c.primary = some true →
      (∀ d ∈ cards, d.primary = some true → d = c) →
      primary_card cards = some c) := by
  have hmem : ∀ x : CardTokenRec,
      x ∈ (orderByCreated cards).filter (fun c => c.primary == some true) ↔
      x ∈ cards ∧ x.primary = some true := by
    intro x
    rw [List.mem_filter]
    constructor
    · rintro ⟨hx, hp⟩
      refine ⟨?_, by simpa using hp⟩
      simpa [orderByCreated] using hx
    · rintro ⟨hx, hp⟩
      exact ⟨by simpa [orderByCreated] using hx, by simpa using hp⟩
  have hsorted : List.Sorted byCreated
      ((orderByCreated cards).filter (fun c => c.primary == some true)) :=
    (List.sorted_insertionSort byCreated cards).filter _
  rcases hL : (orderByCreated cards).filter (fun c => c.primary == some true) with
    _ | ⟨c, rest⟩
  · have hnone : primary_card cards = none := by
      unfold primary_card
      rw [hL]
    refine ⟨⟨fun _ => ?_, fun _ => hnone⟩, fun c hc => ?_, fun c hc hp _ => ?_⟩
    · intro c hc hp
      have : c ∈ ([] : List CardTokenRec) := hL ▸ (hmem c).mpr ⟨hc, hp⟩
      simp at this
    · rw [hnone] at hc
      exact absurd hc (by simp)
    · have : c ∈ ([] : List CardTokenRec) := hL ▸ (hmem c).mpr ⟨hc, hp⟩
      simp at this
  · have hsome : primary_card cards = some c := by
      unfold primary_card
      rw [hL]
      cases rest <;> rfl
    have hc : c ∈ cards ∧ c.primary = some true :=
      (hmem c).mp (by rw [hL]; exact List.mem_cons_self c rest)
    have hmin : ∀ d ∈ cards, d.primary = some true → c.created ≤ d.created := by
      intro d hd hp
      have : d ∈ c :: rest := hL ▸ (hmem d).mpr ⟨hd, hp⟩
      rcases this with _ | hdrest
      · exact le_refl _
      · exact List.rel_of_sorted_cons (hL ▸ hsorted) d (by assumption)
    refine ⟨⟨fun h => ?_, fun h => ?_⟩, fun c' hc' => ?_, fun c' hc' hp' huniq => ?_⟩
    · rw [hsome] at h
      exact absurd h (by simp)
    · exact absurd (h c hc.1 hc.2) (by simp [hc.2])
    · rw [hsome] at hc'
      cases hc'
      exact ⟨hc.1, hc.2, hmin⟩
    · rw [hsome, huniq c hc.1 hc.2]

theorem PinTransaction.save_ok_eq {s : PinSettings} {now : Nat}
    {t v : PinTransaction} (h : PinTransaction.save s now t = .ok v) :
    v = { t with environment := effectiveEnvironment s t
                 date := some (t.date.getD now) } :=
  ((PinTransaction.save_ok_iff s now t v).mp h).2.2.2

theorem effectiveEnvironment_stable (s : PinSettings) {t w : PinTransaction}
    (h : w.environment = effectiveEnvironment s t) :
    effectiveEnvironment s w = w.environment := by
  unfold effectiveEnvironment at h ⊢
  by_cases hw : w.environment = ""
  · rw [if_pos hw, hw]
    rw [hw] at h
    by_cases ht : t.environment = ""
    · rw [if_pos ht] at h
      exact h.symm
    · rw [if_neg ht] at h
      exact absurd h.symm ht
  · rw [if_neg hw]

theorem PinTransaction.save_ok_save {s : PinSettings} {now : Nat}
    {t v w : PinTransaction}
    (h : PinTransaction.save s now t = .ok v)
    (hcard : w.card_token = v.card_token)
    (hcust : w.customer_token = v.customer_token)
    (henv : w.environment = v.environment)
    (hdate : w.date = v.date) :
    PinTransaction.save s now w = .ok w := by
  rw [PinTransaction.save_ok_iff] at h
  obtain ⟨h1, h2, h3, rfl⟩ := h
  have he : effectiveEnvironment s w = w.environment :=
    effectiveEnvironment_stable s henv
  rw [PinTransaction.save_ok_iff]
  refine ⟨?_, ?_, ?_, ?_⟩
  · rw [hcard, hcust]
    exact h1
  · rw [hcard, hcust]
    exact h2
  · rw [he, henv]
    exact h3
  · have hd : some (w.date.getD now) = w.date := by
      rw [hdate]
      rfl
    rw [he, hd]

theorem PinTransaction.process_trace_cases (s : PinSettings) (now : Nat)
    (gw : String × Option JValue) (t : PinTransaction)
    (hproc : t.processed = false) :
    (t.process_transaction s now gw).1 = [] ∨
    (∃ t1 : PinTransaction, t1.processed = true ∧
      ((t.process_transaction s now gw).1 = [Event.save t1] ∨
       (∃ pl, (t.process_transaction s now gw).1 =
          [Event.save t1, Event.post "/charges" pl]) ∨
       (∃ pl t4, (t.process_transaction s now gw).1 =
          [Event.save t1, Event.post "/charges" pl, Event.save t4]))) := by
  unfold PinTransaction.process_transaction
  simp only [hproc, Bool.false_eq_true, if_false]
  cases hsave : PinTransaction.save s now { t with processed := true } with
  | error e => simp
  | ok t1 =>
    have ht1 : t1.processed = true := by
      rw [PinTransaction.save_ok_eq hsave]
    cases hpl : t1.buildPayload with
    | error e => exact Or.inr ⟨t1, ht1, Or.inl (by simp [hpl])⟩
    | ok pl =>
      cases hint : ({ t1 with pin_response_text := some gw.1 }).interpretResponse gw.2 with
      | error e => exact Or.inr ⟨t1, ht1, Or.inr (Or.inl ⟨pl, by simp [hpl, hint]⟩)⟩
      | ok t3 =>
        cases hs2 : PinTransaction.save s now t3 with
        | error e =>
          exact Or.inr ⟨t1, ht1, Or.inr (Or.inl ⟨pl, by simp [hpl, hint, hs2]⟩)⟩
        | ok t4 =>
          exact Or.inr ⟨t1, ht1, Or.inr (Or.inr ⟨pl, t4, by simp [hpl, hint, hs2]⟩)⟩

/-- C3: for an unprocessed transaction, every POST that
`process_transaction` issues is strictly preceded in the event trace by a
database write of a record whose `processed` flag is true — the record is
persisted as non-resubmittable before the network call. -/
theorem processed_persisted_before_post (s : PinSettings) (now : Nat)
    (gw : String × Option JValue) (t : PinTransaction)
    (hproc : t.processed = false) (i : Nat) (e : Event)
    (he : (t.process_transaction s now gw).1[i]? = some e)
    (hp : e.isPost = true) :
    ∃ j t1, j < i ∧
      (t.process_transaction s now gw).1[j]? = some (Event.save t1) ∧
      t1.processed = true := by
  rcases PinTransaction.process_trace_cases s now gw t hproc with
    h0 | ⟨t1, ht1, h1 | ⟨pl, h2⟩ | ⟨pl, t4, h3⟩⟩
  · rw [h0] at he
    simp at he
  · rw [h1] at he
    rcases i with _ | n
    · simp only [List.getElem?_cons_zero, Option.some.injEq] at he
      subst he
      simp [Event.isPost] at hp
    · simp at he
  · rw [h2] at he
    rcases i with _ | _ | n
    · simp only [List.getElem?_cons_zero, Option.some.injEq] at he
      subst he
      simp [Event.isPost] at hp
    · exact ⟨0, t1, Nat.zero_lt_one, by rw [h2]; rfl, ht1⟩
    · simp at he
  · rw [h3] at he
    rcases i with _ | _ | _ | n
    · simp only [List.getElem?_cons_zero, Option.some.injEq] at he
      subst he
      simp [Event.isPost] at hp
    · exact ⟨0, t1, Nat.zero_lt_one, by rw [h3]; rfl, ht1⟩
    · simp only [List.getElem?_cons_succ, List.getElem?_cons_zero,
        Option.some.injEq] at he
      subst he
      simp [Event.isPost] at hp
    · simp at he

theorem processed_persisted_before_post_witness :
    ∃ j t1, j < 1 ∧
      (t0.process_transaction s0 0 ("", none)).1[j]? = some (Event.save t1) ∧
      t1.processed = true :=
  processed_persisted_before_post s0 0 ("", none) t0 rfl 1
    (Event.post "/charges" pl0) rfl rfl

theorem PinTransaction.interpret_none (t : PinTransaction) :
    t.interpretResponse none = .ok { t with pin_response := some (.str "Failure.") } :=
  rfl

theorem PinTransaction.interpret_error_msg {t : PinTransaction}
    {rj msgs m0 m : JValue}
    (herr : rj.keysHas "error" = .ok true)
    (hmsgs : rj.keysHas "messages" = .ok true)
    (hget : rj.getKey "messages" = .ok msgs)
    (hidx : msgs.getIdx 0 = .ok m0)
    (hhas : m0.keysHas "message" = .ok true)
    (hm : m0.getKey "message" = .ok m) :
    t.interpretResponse (some rj) =
      .ok { t with pin_response := some (.str ("Failure: " ++ m.pyStr))
                   transaction_token := (rj.dictGet "charge_token").toPyOpt } := by
  unfold PinTransaction.interpretResponse
  simp [Bind.bind, Except.bind, Pure.pure, Except.pure,
    herr, hmsgs, hget, hidx, hhas, hm]

theorem PinTransaction.interpret_error_nomsgs {t : PinTransaction}
    {rj d : JValue}
    (herr : rj.keysHas "error" = .ok true)
    (hmsgs : rj.keysHas "messages" = .ok false)
    (hd : rj.getKey "error_description" = .ok d) :
    t.interpretResponse (some rj) =
      .ok { t with pin_response := some (.str ("Failure: " ++ d.pyStr))
                   transaction_token := (rj.dictGet "charge_token").toPyOpt } := by
  unfold PinTransaction.interpretResponse
  simp [Bind.bind, Except.bind, Pure.pure, Except.pure, herr, hmsgs, hd]

theorem PinTransaction.interpret_error_skip {t : PinTransaction}
    {rj msgs m0 : JValue}
    (herr : rj.keysHas "error" = .ok true)
    (hmsgs : rj.keysHas "messages" = .ok true)
    (hget : rj.getKey "messages" = .ok msgs)
    (hidx : msgs.getIdx 0 = .ok m0)
    (hhas : m0.keysHas "message" = .ok false) :
    t.interpretResponse (some rj) =
      .ok { t with transaction_token := (rj.dictGet "charge_token").toPyOpt } := by
  unfold PinTransaction.interpretResponse
  simp [Bind.bind, Except.bind, Pure.pure, Except.pure,
    herr, hmsgs, hget, hidx, hhas]

theorem PinTransaction.interpret_success {t : PinTransaction}
    {rj data tok sm card a1 a2 city st pc country dn sc : JValue} {n : ℤ}
    (herr : rj.keysHas "error" = .ok false)
    (hresp : rj.getKey "response" = .ok data)
    (htok : data.getKey "token" = .ok tok)
    (hfees : data.getKey "total_fees" = .ok (.int n))
    (hsm : data.getKey "status_message" = .ok sm)
    (hcard : data.getKey "card" = .ok card)
    (ha1 : card.getKey "address_line1" = .ok a1)
    (ha2 : card.getKey "address_line2" = .ok a2)
    (hcity : card.getKey "address_city" = .ok city)
    (hst : card.getKey "address_state" = .ok st)
    (hpc : card.getKey "address_postcode" = .ok pc)
    (hcountry : card.getKey "address_country" = .ok country)
    (hdn : card.getKey "display_number" = .ok dn)
    (hsc : card.getKey "scheme" = .ok sc) :
    t.interpretResponse (some rj) =
      .ok { t with
        succeeded := true
        transaction_token := tok.toPyOpt
        fees := some ((n : ℚ) / 100)
        pin_response := sm.toPyOpt
        card_address1 := a1.toPyOpt
        card_address2 := a2.toPyOpt
        card_city := city.toPyOpt
        card_state := st.toPyOpt
        card_postcode := pc.toPyOpt
        card_country := country.toPyOpt
        card_number := dn.toPyOpt
        card_type := sc.toPyOpt } := by
  unfold PinTransaction.interpretResponse
  simp [Bind.bind, Except.bind, Pure.pure, Except.pure, JValue.asInt,
    herr, hresp, htok, hfees, hsm, hcard, ha1, ha2, hcity, hst, hpc,
    hcountry, hdn, hsc]

theorem PinTransaction.process_run_ok {s : PinSettings} {now : Nat}
    {gw : String × Option JValue} {t t1 t3 : PinTransaction} {pl : ChargePayload}
    (hproc : t.processed = false)
    (hsave : PinTransaction.save s now { t with processed := true } = .ok t1)
    (hpl : t1.buildPayload = .ok pl)
    (hint : ({ t1 with pin_response_text := some gw.1 }).interpretResponse gw.2 =
      .ok t3)
    (hs2 : PinTransaction.save s now t3 = .ok t3) :
    t.process_transaction s now gw =
      ([Event.save t1, Event.post "/charges" pl, Event.save t3],
       .ok (t3, t3.pin_response)) := by
  unfold PinTransaction.process_transaction
  simp [hproc, hsave, hpl, hint, hs2]

theorem PinTransaction.buildPayload_amount {t : PinTransaction}
    {pl : ChargePayload} (h : t.buildPayload = .ok pl) :
    pl.amount = pyInt (t.amount * 100) := by
  unfold PinTransaction.buildPayload at h
  split_ifs at h with h1
  · cases h
    rfl
  · cases hc : t.customer_token with
    | none => rw [hc] at h; cases h
    | some c =>
      rw [hc] at h
      cases h
      rfl

/-- C6: when the gateway client yields no parsable JSON (`none`),
`process_transaction` raises nothing: it returns normally with
`pin_response = "Failure."`, leaves `succeeded` unchanged (false), and the
trace ends with a persisting save of that terminal failed state. -/
theorem process_no_json_records_failure (s : PinSettings) (now : Nat)
    (text : String) (t t1 : PinTransaction) (pl : ChargePayload)
    (hproc : t.processed = false)
    (hsave : PinTransaction.save s now { t with processed := true } = .ok t1)
    (hpl : t1.buildPayload = .ok pl) :
    ∃ t4, t.process_transaction s now (text, none) =
        ([Event.save t1, Event.post "/charges" pl, Event.save t4],
         .ok (t4, t4.pin_response)) ∧
      t4.pin_response = some (.str "Failure.") ∧
      t4.succeeded = t.succeeded := by
  have hint : ({ t1 with pin_response_text := some text }).interpretResponse none =
      .ok { t1 with pin_response_text := some text
                    pin_response := some (.str "Failure.") } := rfl
  have hs2 : PinTransaction.save s now
      { t1 with pin_response_text := some text
                pin_response := some (.str "Failure.") } =
      .ok { t1 with pin_response_text := some text
                    pin_response := some (.str "Failure.") } :=
    PinTransaction.save_ok_save hsave rfl rfl rfl rfl
  refine ⟨_, PinTransaction.process_run_ok hproc hsave hpl hint hs2, rfl, ?_⟩
  rw [PinTransaction.save_ok_eq hsave]

theorem process_no_json_records_failure_witness :
    ∃ t4, t0.process_transaction s0 0 ("oops", none) =
        ([Event.save t1c, Event.post "/charges" pl0, Event.save t4],
         .ok (t4, t4.pin_response)) ∧
      t4.pin_response = some (.str "Failure.") ∧
      t4.succeeded = t0.succeeded :=
  process_no_json_records_failure s0 0 "oops" t0 t1c pl0 rfl rfl rfl

/-- C7: on a successful gateway response `process_transaction` sets
`succeeded` to true, copies the transaction token, stores
`fees = total_fees / 100`, stores the status message in `pin_response`,
and copies the card snapshot fields from the response body, ending with a
persisting save of that state. -/
theorem process_success_maps_response (s : PinSettings) (now : Nat)
    (text : String) (t t1 : PinTransaction) (pl : ChargePayload)
    (rj data tok sm card a1 a2 city st pc country dn sc : JValue) (n : ℤ)
    (hproc : t.processed = false)
    (hsave : PinTransaction.save s now { t with processed := true } = .ok t1)
    (hpl : t1.buildPayload = .ok pl)
    (herr : rj.keysHas "error" = .ok false)
    (hresp : rj.getKey "response" = .ok data)
    (htok : data.getKey "token" = .ok tok)
    (hfees : data.getKey "total_fees" = .ok (.int n))
    (hsm : data.getKey "status_message" = .ok sm)
    (hcard : data.getKey "card" = .ok card)
    (ha1 : card.getKey "address_line1" = .ok a1)
    (ha2 : card.getKey "address_line2" = .ok a2)
    (hcity : card.getKey "address_city" = .ok city)
    (hst : card.getKey "address_state" = .ok st)
    (hpc : card.getKey "address_postcode" = .ok pc)
    (hcountry : card.getKey "address_country" = .ok country)
    (hdn : card.getKey "display_number" = .ok dn)
    (hsc : card.getKey "scheme" = .ok sc) :
    ∃ t4, t.process_transaction s now (text, some rj) =
        ([Event.save t1, Event.post "/charges" pl, Event.save t4],
         .ok (t4, t4.pin_response)) ∧
      t4.succeeded = true ∧
      t4.transaction_token = tok.toPyOpt ∧
      t4.fees = some ((n : ℚ) / 100) ∧
      t4.pin_response = sm.toPyOpt ∧
      t4.card_address1 = a1.toPyOpt ∧
      t4.card_address2 = a2.toPyOpt ∧
      t4.card_city = city.toPyOpt ∧
      t4.card_state = st.toPyOpt ∧
      t4.card_postcode = pc.toPyOpt ∧
      t4.card_country = country.toPyOpt ∧
      t4.card_number = dn.toPyOpt ∧
      t4.card_type = sc.toPyOpt := by
  have hint := PinTransaction.interpret_success
    (t := { t1 with pin_response_text := some text })
    herr hresp htok hfees hsm hcard ha1 ha2 hcity hst hpc hcountry hdn hsc
  have hs2 := PinTransaction.save_ok_save (w :=
      { { t1 with pin_response_text := some text } with
        succeeded := true
        transaction_token := tok.toPyOpt
        fees := some ((n : ℚ) / 100)
        pin_response := sm.toPyOpt
        card_address1 := a1.toPyOpt
        card_address2 := a2.toPyOpt
        card_city := city.toPyOpt
        card_state := st.toPyOpt
        card_postcode := pc.toPyOpt
        card_country := country.toPyOpt
        card_number := dn.toPyOpt
        card_type := sc.toPyOpt }) hsave rfl rfl rfl rfl
  exact ⟨_, PinTransaction.process_run_ok hproc hsave hpl hint hs2,
    rfl, rfl, rfl, rfl, rfl, rfl, rfl, rfl, rfl, rfl, rfl, rfl⟩

theorem process_success_maps_response_witness :
    (∃ t4, t0.process_transaction s0 0 ("raw", some rjSuccess) =
        ([Event.save t1c, Event.post "/charges" pl0, Event.save t4],
         .ok (t4, t4.pin_response)) ∧
      t4.succeeded = true ∧
      t4.transaction_token = (JValue.str "ch_1").toPyOpt ∧
      t4.fees = some ((250 : ℚ) / 100) ∧
      t4.pin_response = (JValue.str "Success!").toPyOpt ∧
      t4.card_address1 = (JValue.str "1 Example St").toPyOpt ∧
      t4.card_address2 = JValue.null.toPyOpt ∧
      t4.card_city = (JValue.str "Melbourne").toPyOpt ∧
      t4.card_state = (JValue.str "VIC").toPyOpt ∧
      t4.card_postcode = (JValue.str "3000").toPyOpt ∧
      t4.card_country = (JValue.str "Australia").toPyOpt ∧
      t4.card_number = (JValue.str "XXXX-XXXX-XXXX-0000").toPyOpt ∧
      t4.card_type = (JValue.str "visa").toPyOpt) ∧
    (250 : ℚ) / 100 = 2.5 :=
  ⟨process_success_maps_response s0 0 "raw" t0 t1c pl0 rjSuccess
      (JValue.obj
        [("token", .str "ch_1"),
         ("total_fees", .int 250),
         ("status_message", .str "Success!"),
         ("card", .obj
           [("address_line1", .str "1 Example St"),
            ("address_line2", .null),
            ("address_city", .str "Melbourne"),
            ("address_state", .str "VIC"),
            ("address_postcode", .str "3000"),
            ("address_country", .str "Australia"),
            ("display_number", .str "XXXX-XXXX-XXXX-0000"),
            ("scheme", .str "visa")])])
      (.str "ch_1") (.str "Success!")
      (JValue.obj
        [("address_line1", .str "1 Example St"),
         ("address_line2", .null),
         ("address_city", .str "Melbourne"),
         ("address_state", .str "VIC"),
         ("address_postcode", .str "3000"),
         ("address_country", .str "Australia"),
         ("display_number", .str "XXXX-XXXX-XXXX-0000"),
         ("scheme", .str "visa")])
      (.str "1 Example St") .null (.str "Melbourne") (.str "VIC")
      (.str "3000") (.str "Australia") (.str "XXXX-XXXX-XXXX-0000")
      (.str "visa") 250
      rfl rfl rfl rfl rfl rfl rfl rfl rfl rfl rfl rfl rfl rfl rfl rfl rfl,
   by norm_num⟩

/-- C5 (amended): on a gateway error response, `succeeded` is left
unchanged (false) and `transaction_token` is set from any `charge_token`
echo; `pin_response` becomes `"Failure: " ++ messages[0].message` when the
`messages` key is present and its first element carries a `message` key,
becomes `"Failure: " ++ error_description` when the `messages` key is
absent, and is left unchanged when `messages` is present but its first
element has no `message` key (in particular for
`{"error":"x","error_description":"bad card"}` it becomes
"Failure: bad card"). -/
theorem process_error_response_mapping (s : PinSettings) (now : Nat)
    (text : String) (rj : JValue) (t t1 : PinTransaction) (pl : ChargePayload)
    (hproc : t.processed = false)
    (hsave : PinTransaction.save s now { t with processed := true } = .ok t1)
    (hpl : t1.buildPayload = .ok pl)
    (herr : rj.keysHas "error" = .ok true) :
    (∀ msgs m0 m : JValue,
      rj.keysHas "messages" = .ok true →
      rj.getKey "messages" = .ok msgs →
      msgs.getIdx 0 = .ok m0 →
      m0.keysHas "message" = .ok true →
      m0.getKey "message" = .ok m →
      ∃ t4, (t.process_transaction s now (text, some rj)).2 =
          .ok (t4, t4.pin_response) ∧
        t4.pin_response = some (.str ("Failure: " ++ m.pyStr)) ∧
        t4.succeeded = t.succeeded ∧
        t4.transaction_token = (rj.dictGet "charge_token").toPyOpt) ∧
    (∀ d : JValue,
      rj.keysHas "messages" = .ok false →
      rj.getKey "error_description" = .ok d →
      ∃ t4, (t.process_transaction s now (text, some rj)).2 =
          .ok (t4, t4.pin_response) ∧
        t4.pin_response = some (.str ("Failure: " ++ d.pyStr)) ∧
        t4.succeeded = t.succeeded ∧
        t4.transaction_token = (rj.dictGet "charge_token").toPyOpt) ∧
    (∀ msgs m0 : JValue,
      rj.keysHas "messages" = .ok true →
      rj.getKey "messages" = .ok msgs →
      msgs.getIdx 0 = .ok m0 →
      m0.keysHas "message" = .ok false →
      ∃ t4, (t.process_transaction s now (text, some rj)).2 =
          .ok (t4, t4.pin_response) ∧
        t4.pin_response = t.pin_response ∧
        t4.succeeded = t.succeeded ∧
        t4.transaction_token = (rj.dictGet "charge_token").toPyOpt) := by
  have hsucc : t1.succeeded = t.succeeded := by
    rw [PinTransaction.save_ok_eq hsave]
  have hresp : t1.pin_response = t.pin_response := by
    rw [PinTransaction.save_ok_eq hsave]
  refine ⟨?_, ?_, ?_⟩
  · intro msgs m0 m hmsgs hget hidx hhas hm
    have hint := PinTransaction.interpret_error_msg
      (t := { t1 with pin_response_text := some text })
      herr hmsgs hget hidx hhas hm
    have hs2 := PinTransaction.save_ok_save (w :=
        { { t1 with pin_response_text := some text } with
          pin_response := some (.str ("Failure: " ++ m.pyStr))
          transaction_token := (rj.dictGet "charge_token").toPyOpt })
      hsave rfl rfl rfl rfl
    refine ⟨{ { t1 with pin_response_text := some text } with
              pin_response := some (.str ("Failure: " ++ m.pyStr))
              transaction_token := (rj.dictGet "charge_token").toPyOpt },
      ?_, rfl, hsucc, rfl⟩
    rw [PinTransaction.process_run_ok hproc hsave hpl hint hs2]
  · intro d hmsgs hd
    have hint := PinTransaction.interpret_error_nomsgs
      (t := { t1 with pin_response_text := some text })
      herr hmsgs hd
    have hs2 := PinTransaction.save_ok_save (w :=
        { { t1 with pin_response_text := some text } with
          pin_response := some (.str ("Failure: " ++ d.pyStr))
          transaction_token := (rj.dictGet "charge_token").toPyOpt })
      hsave rfl rfl rfl rfl
    refine ⟨{ { t1 with pin_response_text := some text } with
              pin_response := some (.str ("Failure: " ++ d.pyStr))
              transaction_token := (rj.dictGet "charge_token").toPyOpt },
      ?_, rfl, hsucc, rfl⟩
    rw [PinTransaction.process_run_ok hproc hsave hpl hint hs2]
  · intro msgs m0 hmsgs hget hidx hhas
    have hint := PinTransaction.interpret_error_skip
      (t := { t1 with pin_response_text := some text })
      herr hmsgs hget hidx hhas
    have hs2 := PinTransaction.save_ok_save (w :=
        { { t1 with pin_response_text := some text } with
          transaction_token := (rj.dictGet "charge_token").toPyOpt })
      hsave rfl rfl rfl rfl
    refine ⟨{ { t1 with pin_response_text := some text } with
              transaction_token := (rj.dictGet "charge_token").toPyOpt },
      ?_, hresp, hsucc, rfl⟩
    rw [PinTransaction.process_run_ok hproc hsave hpl hint hs2]

theorem process_error_response_mapping_witness :
    (∃ t4, (t0.process_transaction s0 0 ("raw", some rjErrMsg)).2 =
        .ok (t4, t4.pin_response) ∧
      t4.pin_response = some (.str ("Failure: " ++ (JValue.str "Card was declined").pyStr)) ∧
      t4.succeeded = t0.succeeded ∧
      t4.transaction_token = (rjErrMsg.dictGet "charge_token").toPyOpt) ∧
    (∃ t4, (t0.process_transaction s0 0 ("raw", some rjErrBasic)).2 =
        .ok (t4, t4.pin_response) ∧
      t4.pin_response = some (.str ("Failure: " ++ (JValue.str "bad card").pyStr)) ∧
      t4.succeeded = t0.succeeded ∧
      t4.transaction_token = (rjErrBasic.dictGet "charge_token").toPyOpt) :=
  ⟨(process_error_response_mapping s0 0 "raw" rjErrMsg t0 t1c pl0
      rfl rfl rfl rfl).1
    (JValue.arr [.obj [("message", .str "Card was declined")]])
    (JValue.obj [("message", .str "Card was declined")])
    (.str "Card was declined")
    rfl rfl rfl rfl rfl,
   (process_error_response_mapping s0 0 "raw" rjErrBasic t0 t1c pl0
      rfl rfl rfl rfl).2.1
    (.str "bad card") rfl rfl⟩

/-- C5 (counterexample): for the error body
`{"error":"x","error_description":"bad card","messages":[{}]}` — the
`messages` key present, its first element lacking a `message` key — the
claim requires `pin_response = "Failure: bad card"`, but the code leaves
`pin_response` unset (`None`). -/
theorem process_error_messages_no_fallback_cex :
    (t0.process_transaction s0 0 ("raw", some rjErrNoMsg)).2.map
        (fun r => r.1.pin_response) = .ok none ∧
    (Except.ok (some (JValue.str "Failure: bad card")) :
        Except PyErr (Option JValue)) ≠ .ok none := by
  constructor
  · rfl
  · simp

theorem PinTransaction.process_trace_post {s : PinSettings} {now : Nat}
    {gw : String × Option JValue} {t t1 : PinTransaction} {pl : ChargePayload}
    (hproc : t.processed = false)
    (hsave : PinTransaction.save s now { t with processed := true } = .ok t1)
    (hpl : t1.buildPayload = .ok pl) :
    (t.process_transaction s now gw).1[1]? = some (Event.post "/charges" pl) := by
  cases hint : ({ t1 with pin_response_text := some gw.1 }).interpretResponse gw.2 with
  | error e =>
    unfold PinTransaction.process_transaction
    simp [hproc, hsave, hpl, hint]
  | ok t3 =>
    cases hs2 : PinTransaction.save s now t3 with
    | error e =>
      unfold PinTransaction.process_transaction
      simp [hproc, hsave, hpl, hint, hs2]
    | ok t4 =>
      unfold PinTransaction.process_transaction
      simp [hproc, hsave, hpl, hint, hs2]

/-- C8: the transaction payload carries the stored decimal-dollar amount
times 100 truncated to an integer, while the transfer payload carries the
stored integer minor-unit amount unchanged. -/
theorem outbound_amounts (s : PinSettings) (now : Nat) :
    (∀ (gw : String × Option JValue) (t t1 : PinTransaction) (pl : ChargePayload),
      t.processed = false →
      PinTransaction.save s now { t with processed := true } = .ok t1 →
      t1.buildPayload = .ok pl →
      pl.amount = pyInt (t.amount * 100) ∧
      (t.process_transaction s now gw).1[1]? = some (Event.post "/charges" pl)) ∧
    (∀ (amount : ℤ) (description : String) (recipient : PinRecipient)
       (currency : String) (gw : String × Option JValue),
      (PinTransfer.send_new amount description recipient currency gw).1[0]? =
        some (TransferEvent.post "/transfers"
          { amount := amount
            description := description
            recipient := recipient.token
            currency := currency })) := by
  constructor
  · intro gw t t1 pl hproc hsave hpl
    refine ⟨?_, PinTransaction.process_trace_post hproc hsave hpl⟩
    rw [PinTransaction.buildPayload_amount hpl]
    rw [PinTransaction.save_ok_eq hsave]
  · intro amount description recipient currency gw
    unfold PinTransfer.send_new
    rcases gw with ⟨text, json⟩
    dsimp only
    split
    · rfl
    · split
      · rfl
      · rfl

theorem outbound_amounts_witness :
    (pl0.amount = pyInt ((19.99 : ℚ) * 100) ∧
     (t0.process_transaction s0 0 ("", none)).1[1]? =
       some (Event.post "/charges" pl0)) ∧
    ((PinTransfer.send_new 400 "payout" recip0 "AUD" ("raw", some rjTransfer)).1[0]? =
      some (TransferEvent.post "/transfers"
        { amount := 400
          description := "payout"
          recipient := recip0.token
          currency := "AUD" })) ∧
    pyInt ((19.99 : ℚ) * 100) = 1999 :=
  ⟨(outbound_amounts s0 0).1 ("", none) t0 t1c pl0 rfl rfl rfl,
   (outbound_amounts s0 0).2 400 "payout" recip0 "AUD" ("raw", some rjTransfer),
   by rw [show (19.99 : ℚ) * 100 = 1999 by norm_num]; simp [pyInt]⟩

/-- C4: `send_new` creates exactly one `PinTransfer` row, populated from the
response fields, when the gateway body carries a `response` object; when the
body has no `response` key (a gateway error) or no JSON was parsed, an
exception propagates and zero rows are created. -/
theorem send_new_creates_iff_success (amount : ℤ) (description : String)
    (recipient : PinRecipient) (currency : String) (text : String) :
    (∀ rj data tok status cur desc amt : JValue,
      rj.objGet? "response" = some data →
      data.objGet? "token" = some tok →
      data.objGet? "status" = some status →
      data.objGet? "currency" = some cur →
      data.objGet? "description" = some desc →
      data.objGet? "amount" = some amt →
      PinTransfer.send_new amount description recipient currency (text, some rj) =
        ([TransferEvent.post "/transfers"
            { amount := amount
              description := description
              recipient := recipient.token
              currency := currency },
          TransferEvent.create
            { transfer_token := tok
              status := status
              currency := cur
              description := desc
              amount := amt
              recipient := recipient.token
              pin_response_text := text }],
         .ok { transfer_token := tok
               status := status
               currency := cur
               description := desc
               amount := amt
               recipient := recipient.token
               pin_response_text := text })) ∧
    (∀ rj : JValue, rj.objGet? "response" = none →
      ∃ e, PinTransfer.send_new amount description recipient currency (text, some rj) =
        ([TransferEvent.post "/transfers"
            { amount := amount
              description := description
              recipient := recipient.token
              currency := currency }],
         .error e)) ∧
    (PinTransfer.send_new amount description recipient currency (text, none) =
      ([TransferEvent.post "/transfers"
          { amount := amount
            description := description
            recipient := recipient.token
            currency := currency }],
       .error .typeError)) := by
  refine ⟨?_, ?_, rfl⟩
  · intro rj data tok status cur desc amt hresp htok hstatus hcur hdesc hamt
    unfold PinTransfer.send_new
    simp [JValue.getKey_of_objGet? hresp, JValue.getKey_of_objGet? htok,
      JValue.getKey_of_objGet? hstatus, JValue.getKey_of_objGet? hcur,
      JValue.getKey_of_objGet? hdesc, JValue.getKey_of_objGet? hamt,
      Bind.bind, Except.bind, Pure.pure, Except.pure]
  · intro rj hresp
    obtain ⟨e, he⟩ := JValue.getKey_error_of_objGet? hresp
    refine ⟨e, ?_⟩
    unfold PinTransfer.send_new
    simp [he]

theorem send_new_creates_iff_success_witness :
    (∃ e, PinTransfer.send_new 400 "payout" recip0 "AUD" ("raw", some rjErrBasic) =
      ([TransferEvent.post "/transfers"
          { amount := 400
            description := "payout"
            recipient := recip0.token
            currency := "AUD" }],
       .error e)) ∧
    PinTransfer.send_new 400 "payout" recip0 "AUD" ("raw", some rjTransfer) =
      ([TransferEvent.post "/transfers"
          { amount := 400
            description := "payout"
            recipient := recip0.token
            currency := "AUD" },
        TransferEvent.create
          { transfer_token := .str "tfer_1"
            status := .str "pending"
            currency := .str "AUD"
            description := .str "payout"
            amount := .int 400
            recipient := recip0.token
            pin_response_text := "raw" }],
       .ok { transfer_token := .str "tfer_1"
             status := .str "pending"
             currency := .str "AUD"
             description := .str "payout"
             amount := .int 400
             recipient := recip0.token
             pin_response_text := "raw" }) :=
  ⟨(send_new_creates_iff_success 400 "payout" recip0 "AUD" "raw").2.1
    rjErrBasic rfl,
   (send_new_creates_iff_success 400 "payout" recip0 "AUD" "raw").1
    rjTransfer
    (JValue.obj
      [("token", .str "tfer_1"),
       ("status", .str "pending"),
       ("currency", .str "AUD"),
       ("description", .str "payout"),
       ("amount", .int 400)])
    (.str "tfer_1") (.str "pending") (.str "AUD") (.str "payout") (.int 400)
    rfl rfl rfl rfl rfl rfl⟩

theorem primary_card_total_spec_witness :
    cardB ∈ [cardA, cardB, cardN] ∧ cardB.primary = some true ∧
    ∀ d ∈ [cardA, cardB, cardN], d.primary = some true →
      cardB.created ≤ d.created :=
  (primary_card_total_spec [cardA, cardB, cardN]).2.1 cardB rfl
